import Mathlib

/-!
Verification of the rerank proxy in src/dify_proxy.py.

The embedding models JSON values as produced by Python json.loads (ints and
floats kept distinct, as json.loads distinguishes them), the Python builtin
operations the handler uses (.get on dicts, the < comparison against an int,
list indexing with negative wrap-around, float() coercion, iteration), and
the two translation steps of the handler: the request payload built at lines
15-21 of do_POST, and convert_hf_to_dify_format (lines 68-139).  Fallible
Python code is embedded in the Except String monad; an uncaught exception is
an Except.error escaping do_POST.  Numbers are rationals: the scores the
claims touch are exact decimal literals, so no floating-point rounding is
involved.
-/

/-- JSON value as decoded by Python json.loads: null, bool, int, float,
string, array, object.  Object fields are listed in order; Python dict keys
are unique, so field lists coming from json.loads never repeat a key. -/
inductive JValue where
  | null
  | bool (b : Bool)
  | int (n : ℤ)
  | float (q : ℚ)
  | str (s : String)
  | arr (xs : List JValue)
  | obj (fields : List (String × JValue))

/-- First binding of a key in an object field list (Python dict lookup). -/
def lookupField (fs : List (String × JValue)) (key : String) : Option JValue :=
  match fs with
  | [] => none
  | (k, v) :: rest => if k = key then some v else lookupField rest key

/-- True exactly on arrays: Python isinstance(x, list). -/
def JValue.isArr : JValue → Bool
  | .arr _ => true
  | _ => false

/-- True exactly on objects: Python isinstance(x, dict). -/
def JValue.isObj : JValue → Bool
  | .obj _ => true
  | _ => false

/-- Python x.get(key, default): dict lookup with default; on a non-dict the
attribute access itself raises AttributeError. -/
def pyGet (v : JValue) (key : String) (default : JValue) : Except String JValue :=
  match v with
  | .obj fs => .ok ((lookupField fs key).getD default)
  | _ => .error "AttributeError: object has no attribute get"

/-- Numeric value of a run of decimal digits, most significant first. -/
def digitsVal (ds : List Char) : Nat :=
  ds.foldl (fun acc c => 10 * acc + (c.toNat - 48)) 0

/-- Split a character list into its leading run of digits and the rest. -/
def splitDigits (cs : List Char) : List Char × List Char :=
  (cs.takeWhile Char.isDigit, cs.dropWhile Char.isDigit)

/-- Scale factor named by an exponent suffix: optional sign then a nonempty
digit run, yielding ten to that power. -/
def parseExpPart (cs : List Char) : Option ℚ :=
  let (neg, cs2) :=
    match cs with
    | '-' :: t => (true, t)
    | '+' :: t => (false, t)
    | _ => (false, cs)
  let (ds, rest) := splitDigits cs2
  if ds.isEmpty ∨ ¬ rest.isEmpty then none
  else some (if neg then (1 : ℚ) / (10 : ℚ) ^ digitsVal ds else (10 : ℚ) ^ digitsVal ds)

/-- Unsigned decimal literal: digits, optional fraction, optional exponent.
Covers the grammar of common Python float literals; inf, nan and underscore
separators are outside the model (no claim touches them). -/
def parseUnsignedFloat (cs : List Char) : Option ℚ :=
  let (ip, rest) := splitDigits cs
  match rest with
  | [] => if ip.isEmpty then none else some (digitsVal ip : ℚ)
  | c :: rest2 =>
    if c = '.' then
      let (fp, rest3) := splitDigits rest2
      if ip.isEmpty ∧ fp.isEmpty then none
      else
        let mant : ℚ := (digitsVal ip : ℚ) + (digitsVal fp : ℚ) / (10 : ℚ) ^ fp.length
        match rest3 with
        | [] => some mant
        | e :: rest4 =>
          if e = 'e' ∨ e = 'E' then (parseExpPart rest4).map (fun k => mant * k)
          else none
    else if c = 'e' ∨ c = 'E' then
      if ip.isEmpty then none
      else (parseExpPart rest2).map (fun k => (digitsVal ip : ℚ) * k)
    else none

/-- Python float(s) on a string: strip spaces, optional sign, decimal
literal. -/
def pyFloatOfString (s : String) : Option ℚ :=
  let cs := ((s.toList.dropWhile (fun c => c = ' ')).reverse.dropWhile
    (fun c => c = ' ')).reverse
  match cs with
  | '-' :: t => (parseUnsignedFloat t).map Neg.neg
  | '+' :: t => parseUnsignedFloat t
  | _ => parseUnsignedFloat cs

/-- Python float(v): numbers and bools coerce, numeric strings parse, every
other value raises. -/
def pyFloat (v : JValue) : Except String ℚ :=
  match v with
  | .int n => .ok (n : ℚ)
  | .float q => .ok q
  | .bool b => .ok (if b then 1 else 0)
  | .str s =>
    match pyFloatOfString s with
    | some q => .ok q
    | none => .error "ValueError: could not convert string to float"
  | _ => .error "TypeError: float argument must be a string or a real number"

/-- Python v < n for an int n: defined for ints, floats and bools (bool is
an int subclass), a TypeError for every other operand. -/
def pyLtNat (v : JValue) (n : Nat) : Except String Bool :=
  match v with
  | .int i => .ok (decide (i < (n : ℤ)))
  | .float q => .ok (decide (q < (n : ℚ)))
  | .bool b => .ok (decide ((if b then (1 : ℤ) else 0) < (n : ℤ)))
  | _ => .error "TypeError: comparison not supported between instances"

/-- Python list indexing docs[i] for an int i: nonnegative positions read
from the front, indices in [-len, 0) wrap around from the end, anything
else raises IndexError. -/
def pyListGetInt (docs : List String) (i : ℤ) : Except String String :=
  if 0 ≤ i ∧ i < (docs.length : ℤ) then .ok (docs.getD i.toNat "")
  else if -(docs.length : ℤ) ≤ i ∧ i < 0 then .ok (docs.getD (i + docs.length).toNat "")
  else .error "IndexError: list index out of range"

/-- Python list indexing docs[v]: ints and bools are valid indices, any
other type raises TypeError. -/
def pyListGet (docs : List String) (v : JValue) : Except String String :=
  match v with
  | .int i => pyListGetInt docs i
  | .bool b => pyListGetInt docs (if b then 1 else 0)
  | _ => .error "TypeError: list indices must be integers"

/-- Python iteration over a value: arrays yield elements, strings yield
one-character strings, dicts yield their keys, other values raise. -/
def pyIter (v : JValue) : Except String (List JValue) :=
  match v with
  | .arr xs => .ok xs
  | .str s => .ok (s.toList.map (fun c => .str (String.mk [c])))
  | .obj fs => .ok (fs.map (fun p => .str p.1))
  | _ => .error "TypeError: object is not iterable"

/-- Document wrapper of an outbound result item. -/
structure Document where
  text : String

/-- One entry of the Dify-format results list.  The index field holds the
raw backend value unchanged, exactly as the handler stores it. -/
structure OutboundResult where
  index : JValue
  document : Document
  relevance_score : ℚ

/-- The Dify-format response body built by convert_hf_to_dify_format. -/
structure DifyResponse where
  results : List OutboundResult

/-- Line 96 and line 112: item.get with corpus_id preferred, index as
fallback, int 0 as final default. -/
def resolveIndex (fields : List (String × JValue)) : JValue :=
  (lookupField fields "corpus_id").getD ((lookupField fields "index").getD (.int 0))

/-- Line 97 and line 113: item.get with score preferred, relevance_score as
fallback, float 0.0 as final default. -/
def resolveScore (fields : List (String × JValue)) : JValue :=
  (lookupField fields "score").getD ((lookupField fields "relevance_score").getD (.float 0))

/-- Lines 96-106 (duplicated verbatim at 112-122): build one result dict
from one backend item.  The dict literal evaluates its values in order:
the index expression, then the document text (the comparison against
len(original_documents) and, when true, the list indexing), then
float(score).  On a non-dict item the .get attribute access raises. -/
def parse_item (item : JValue) (docs : List String) : Except String OutboundResult :=
  match item with
  | .obj fields => do
    let index := resolveIndex fields
    let score := resolveScore fields
    let lt ← pyLtNat index docs.length
    let text ← if lt then pyListGet docs index else pure ""
    let sc ← pyFloat score
    pure { index := index, document := { text := text }, relevance_score := sc }
  | _ => .error "AttributeError: object has no attribute get"

/-- Lines 92-106: the direct-list branch skips items that are not dicts
(isinstance check) and parses the rest in order. -/
def collect_list_items (items : List JValue) (docs : List String) :
    Except String (List OutboundResult) :=
  match items with
  | [] => .ok []
  | item :: rest =>
    match item with
    | .obj fs => do
      let r ← parse_item (.obj fs) docs
      let rs ← collect_list_items rest docs
      pure (r :: rs)
    | _ => collect_list_items rest docs

/-- Lines 110-122: the results-key branch has no isinstance guard, so a
non-dict item makes parse_item raise and the whole conversion fail. -/
def collect_result_items (items : List JValue) (docs : List String) :
    Except String (List OutboundResult) :=
  match items with
  | [] => .ok []
  | item :: rest => do
    let r ← parse_item item docs
    let rs ← collect_result_items rest docs
    pure (r :: rs)

/-- Lines 125-134: the scores-key branch; enumerate supplies the position i
as the index, the text lookup never wraps because i is nonnegative. -/
def collect_scores (i : Nat) (scores : List JValue) (docs : List String) :
    Except String (List OutboundResult) :=
  match scores with
  | [] => .ok []
  | s :: rest => do
    let text := if i < docs.length then docs.getD i "" else ""
    let sc ← pyFloat s
    let rs ← collect_scores (i + 1) rest docs
    pure ({ index := .int (i : ℤ), document := { text := text },
            relevance_score := sc } :: rs)

/-- Lines 89-134: the results list as built before sorting, dispatching on
the shape of the backend value: a list directly, else a dict with a results
key, else a dict with a scores key, else nothing at all. -/
def collect_results (hf : JValue) (docs : List String) :
    Except String (List OutboundResult) :=
  match hf with
  | .arr items => collect_list_items items docs
  | .obj fields =>
    match lookupField fields "results" with
    | some rv => do
      let items ← pyIter rv
      collect_result_items items docs
    | none =>
      match lookupField fields "scores" with
      | some sv => do
        let ss ← pyIter sv
        collect_scores 0 ss docs
      | none => .ok []
  | _ => .ok []

/-- Comparison used by the sort at line 137: descending by relevance
score. -/
def scoreDescLe (a b : OutboundResult) : Bool :=
  decide (b.relevance_score ≤ a.relevance_score)

/-- Line 137: results.sort(key, reverse=True).  CPython list.sort is
stable, and reverse=True reverses before and after the stable ascending
sort, which is exactly a stable descending sort: mergeSort with the
descending comparison. -/
def sort_by_relevance (rs : List OutboundResult) : List OutboundResult :=
  rs.mergeSort scoreDescLe

/-- Lines 68-139: convert_hf_to_dify_format builds the results list and
returns it sorted by score, wrapped under the results key. -/
def convert_hf_to_dify_format (hf : JValue) (docs : List String) :
    Except String DifyResponse := do
  let results ← collect_results hf docs
  pure { results := sort_by_relevance results }

/-- The rerank payload of lines 15-21: two fields copied from the inbound
body via .get, three fixed policy constants. -/
structure RerankPayload where
  query : JValue
  texts : JValue
  truncate : Bool
  truncation_direction : String
  raw_scores : Bool

/-- Lines 15-21: build the backend request from the inbound body.  The
.get calls raise on a non-dict inbound value, and these lines sit outside
the try block of do_POST. -/
def rerank_payload (incoming : JValue) : Except String RerankPayload := do
  let q ← pyGet incoming "query" (.str "")
  let t ← pyGet incoming "documents" (.arr [])
  pure { query := q, texts := t, truncate := true,
         truncation_direction := "Right", raw_scores := false }

/-- Backend HTTP response as seen inside the try block: the status, the raw
body bytes, and the outcome of json.loads on that body (the JSON parser is
a collaborator, so its result is part of the model input; it is consulted
only on the 200 path). -/
structure BackendHttp where
  status : Nat
  body : String
  parsed : Except String JValue

/-- Outcome of the backend call: either the connection itself raised, or a
response arrived. -/
inductive BackendOutcome where
  | connFailure (msg : String)
  | response (r : BackendHttp)

/-- Body written back to the caller: raw forwarded bytes, or a JSON value
the handler serializes itself. -/
inductive HttpBody where
  | raw (s : String)
  | jsonVal (v : JValue)

/-- JSON serialization of one outbound result item, as json.dumps lays it
out: the raw index value, the document wrapper, the score. -/
def OutboundResult.toJValue (r : OutboundResult) : JValue :=
  .obj [("index", r.index),
        ("document", .obj [("text", .str r.document.text)]),
        ("relevance_score", .float r.relevance_score)]

/-- JSON serialization of the converted response body. -/
def DifyResponse.toJValue (d : DifyResponse) : JValue :=
  .obj [("results", .arr (d.results.map OutboundResult.toJValue))]

/-- Lines 62-66: the error body written on the except path. -/
def error_body (msg : String) : JValue :=
  .obj [("error", .str ("Proxy error: " ++ msg))]

/-- A JSON array of strings read back as a Lean list of strings.  The
conversion marks the model boundary: convert_hf_to_dify_format is embedded
over a list of document strings, the domain the inbound schema prescribes
for the documents field. -/
def asStringList (v : JValue) : Option (List String) :=
  match v with
  | .arr xs => xs.mapM (fun x => match x with | .str s => some s | _ => none)
  | _ => none

/-- Lines 30-57: the try block.  A connection failure raises; a 200 status
parses the body and converts it; any other status forwards the raw body and
the backend status untouched.  Inbound documents values that are not
sequences of strings are outside the model (see asStringList). -/
def try_block (incoming : JValue) (backend : BackendOutcome) :
    Except String (Nat × HttpBody) :=
  match backend with
  | .connFailure msg => .error msg
  | .response resp =>
    if resp.status = 200 then do
      let hf ← resp.parsed
      let docsJ ← pyGet incoming "documents" (.arr [])
      match asStringList docsJ with
      | some docs => do
        let dify ← convert_hf_to_dify_format hf docs
        pure (200, .jsonVal dify.toJValue)
      | none => .error "model boundary: documents is not a sequence of strings"
    else
      pure (resp.status, .raw resp.body)

/-- Lines 6-66 of do_POST, after json.loads of the inbound body: the
payload construction of lines 15-21 runs outside the try block, so its
exceptions escape the handler (an Except.error of do_POST itself); the try
block turns every exception it catches into a 500 with an error body. -/
def do_POST (incoming : JValue) (backend : BackendOutcome) :
    Except String (Nat × HttpBody) := do
  let _pay ← rerank_payload incoming
  match try_block incoming backend with
  | .ok r => pure r
  | .error e => pure (500, .jsonVal (error_body e))

/-! Helper lemmas shared by the claim theorems. -/

@[simp] theorem except_ok_bind {α β : Type} (a : α) (f : α → Except String β) :
    (Except.ok a >>= f : Except String β) = f a := rfl

@[simp] theorem except_error_bind {α β : Type} (e : String) (f : α → Except String β) :
    (Except.error e >>= f : Except String β) = Except.error e := rfl

@[simp] theorem except_pure {α : Type} (a : α) :
    (pure a : Except String α) = Except.ok a := rfl

theorem sort_by_relevance_nil : sort_by_relevance [] = [] := List.mergeSort_nil

theorem sort_by_relevance_single (r : OutboundResult) : sort_by_relevance [r] = [r] :=
  List.mergeSort_singleton r

theorem sort_by_relevance_pair (a b : OutboundResult) :
    sort_by_relevance [a, b] = if scoreDescLe a b then [a, b] else [b, a] := by
  simp [sort_by_relevance, List.mergeSort, List.merge]

theorem scoreDescLe_trans (a b c : OutboundResult)
    (h1 : scoreDescLe a b = true) (h2 : scoreDescLe b c = true) : scoreDescLe a c = true := by
  simp [scoreDescLe] at h1 h2 ⊢
  exact h2.trans h1

theorem scoreDescLe_total (a b : OutboundResult) :
    (scoreDescLe a b || scoreDescLe b a) = true := by
  simp [scoreDescLe]
  exact le_total _ _

/-- Claim C1 (amended): for a backend item whose resolved index is the
integer i against N documents, document.text is the empty string when
N <= i; for 0 <= i < N the text is the document at position i; for
-N <= i < 0 the text wraps around to the document at position i + N; and
for i < -N the item raises an IndexError, failing the conversion.  Text is
therefore non-empty only when -N <= i < N, not only when 0 <= i < N. -/
theorem c1_text_empty_only_at_or_above_length (fields : List (String × JValue))
    (docs : List String) (i : ℤ) (q : ℚ)
    (hidx : resolveIndex fields = .int i)
    (hsc : pyFloat (resolveScore fields) = .ok q) :
    ((docs.length : ℤ) ≤ i →
      parse_item (.obj fields) docs =
        .ok { index := .int i, document := { text := "" }, relevance_score := q })
  ∧ (0 ≤ i → i < (docs.length : ℤ) →
      parse_item (.obj fields) docs =
        .ok { index := .int i, document := { text := docs.getD i.toNat "" },
              relevance_score := q })
  ∧ (-(docs.length : ℤ) ≤ i → i < 0 →
      parse_item (.obj fields) docs =
        .ok { index := .int i, document := { text := docs.getD (i + docs.length).toNat "" },
              relevance_score := q })
  ∧ (i < -(docs.length : ℤ) →
      parse_item (.obj fields) docs = .error "IndexError: list index out of range") := by
  refine ⟨fun h1 => ?_, fun h1 h2 => ?_, fun h1 h2 => ?_, fun h1 => ?_⟩
  · have hlt : ¬ (i < (docs.length : ℤ)) := by omega
    simp [parse_item, hidx, hsc, pyLtNat, hlt]
  · simp [parse_item, hidx, hsc, pyLtNat, pyListGet, pyListGetInt, h1, h2]
  · have hlt : i < (docs.length : ℤ) := by omega
    have hn0 : ¬ (0 ≤ i) := by omega
    simp [parse_item, hidx, hsc, pyLtNat, pyListGet, pyListGetInt, hlt, hn0, h1, h2]
  · have hlt : i < (docs.length : ℤ) := by omega
    have hn0 : ¬ (0 ≤ i) := by omega
    have hn1 : ¬ (-(docs.length : ℤ) ≤ i) := by omega
    simp [parse_item, hidx, hsc, pyLtNat, pyListGet, pyListGetInt, hlt, hn0, hn1]

/-- Witness for C1 (amended): corpus_id 5 against two documents yields an
empty text. -/
theorem c1_text_empty_only_at_or_above_length_witness :
    parse_item (.obj [("corpus_id", .int 5), ("score", .float 1)]) ["a", "b"] =
      .ok { index := .int 5, document := { text := "" }, relevance_score := 1 } :=
  (c1_text_empty_only_at_or_above_length [("corpus_id", .int 5), ("score", .float 1)]
    ["a", "b"] 5 1 rfl rfl).1 (by decide)

/-- Counterexample to C1 as stated: the resolved index -1 lies outside
0 <= index < 1, yet against the one-document list the produced result
carries text x, not the empty string. -/
theorem c1_counterexample :
    convert_hf_to_dify_format
      (.arr [.obj [("corpus_id", .int (-1)), ("score", .float 1)]]) ["x"] =
      .ok { results := [{ index := .int (-1), document := { text := "x" },
                          relevance_score := 1 }] }
    ∧ (-1 : ℤ) < 0 ∧ "x" ≠ "" := by
  refine ⟨?_, by decide, by decide⟩
  have h : collect_results (.arr [.obj [("corpus_id", .int (-1)), ("score", .float 1)]]) ["x"]
      = .ok [{ index := .int (-1), document := { text := "x" }, relevance_score := 1 }] := rfl
  simp [convert_hf_to_dify_format, h, sort_by_relevance_single]

/-- Claim C9: with N documents, N > 0, a resolved integer index i with
-N <= i < 0 produces the document at position N + i (wrap-around from the
end), not the empty string. -/
theorem c9_negative_index_wraparound (fields : List (String × JValue))
    (docs : List String) (i : ℤ) (q : ℚ)
    (_hN : 0 < docs.length)
    (hidx : resolveIndex fields = .int i)
    (hsc : pyFloat (resolveScore fields) = .ok q)
    (hlo : -(docs.length : ℤ) ≤ i) (hhi : i < 0) :
    parse_item (.obj fields) docs =
      .ok { index := .int i,
            document := { text := docs.getD ((docs.length : ℤ) + i).toNat "" },
            relevance_score := q } := by
  have hlt : i < (docs.length : ℤ) := by omega
  have hn0 : ¬ (0 ≤ i) := by omega
  have hc : i + (docs.length : ℤ) = (docs.length : ℤ) + i := by omega
  simp [parse_item, hidx, hsc, pyLtNat, pyListGet, pyListGetInt, hlt, hn0, hlo, hhi, hc]

/-- Witness for C9: index -1 against two documents reads the last one. -/
theorem c9_negative_index_wraparound_witness :
    parse_item (.obj [("corpus_id", .int (-1)), ("score", .float 2)]) ["a", "b"] =
      .ok { index := .int (-1), document := { text := "b" }, relevance_score := 2 } := by
  exact c9_negative_index_wraparound _ _ (-1) 2 (by decide) rfl rfl (by decide) (by decide)

/-- Claim C2: every successfully normalized output is the production-order
results list sorted by relevance_score descending; the sort is a
permutation, adjacent scores are non-increasing, and equal-score items keep
the relative order in which the shape-parsing step produced them. -/
theorem c2_sorted_descending_stable (hf : JValue) (docs : List String)
    (pre : List OutboundResult)
    (hpre : collect_results hf docs = .ok pre) :
    convert_hf_to_dify_format hf docs = .ok { results := sort_by_relevance pre }
  ∧ List.Pairwise (fun a b => b.relevance_score ≤ a.relevance_score) (sort_by_relevance pre)
  ∧ (sort_by_relevance pre).Perm pre
  ∧ (∀ a b, a.relevance_score = b.relevance_score →
      [a, b].Sublist pre → [a, b].Sublist (sort_by_relevance pre)) := by
  refine ⟨?_, ?_, ?_, ?_⟩
  · simp [convert_hf_to_dify_format, hpre]
  · have h := List.sorted_mergeSort
      (fun a b c => scoreDescLe_trans a b c) (fun a b => scoreDescLe_total a b) pre
    exact h.imp (fun hb => by simpa [scoreDescLe] using hb)
  · exact List.mergeSort_perm pre scoreDescLe
  · intro a b hab hsub
    exact List.pair_sublist_mergeSort (fun a b c => scoreDescLe_trans a b c)
      (fun a b => scoreDescLe_total a b) (by simp [scoreDescLe, hab]) hsub

/-- Witness for C2: two items with equal scores stay in production order
through the sort. -/
theorem c2_sorted_descending_stable_witness :
    [({ index := .int 0, document := { text := "x" }, relevance_score := 1 } : OutboundResult),
     { index := .int 1, document := { text := "y" }, relevance_score := 1 }].Sublist
      (sort_by_relevance
        [{ index := .int 0, document := { text := "x" }, relevance_score := 1 },
         { index := .int 1, document := { text := "y" }, relevance_score := 1 }]) :=
  (c2_sorted_descending_stable
    (.arr [.obj [("index", .int 0), ("score", .float 1)],
           .obj [("index", .int 1), ("score", .float 1)]]) ["x", "y"]
    [{ index := .int 0, document := { text := "x" }, relevance_score := 1 },
     { index := .int 1, document := { text := "y" }, relevance_score := 1 }]
    rfl).2.2.2 _ _ rfl (List.Sublist.refl _)

/-- Claim C3: shape dispatch of the normalizer.  A value that is neither a
sequence nor a mapping yields an empty results sequence without error; so
does a mapping with neither a results nor a scores key.  A mapping with a
results key is processed through that key alone, even when a scores key is
also present (priority), and a mapping without results but with scores is
processed through the scores key alone. -/
theorem c3_shape_dispatch_priority (hf : JValue) (docs : List String) :
    (hf.isArr = false → hf.isObj = false →
      convert_hf_to_dify_format hf docs = .ok { results := [] })
  ∧ (∀ fs, hf = .obj fs → lookupField fs "results" = none → lookupField fs "scores" = none →
      convert_hf_to_dify_format hf docs = .ok { results := [] })
  ∧ (∀ fs rv, hf = .obj fs → lookupField fs "results" = some rv →
      convert_hf_to_dify_format hf docs =
        convert_hf_to_dify_format (.obj [("results", rv)]) docs)
  ∧ (∀ fs sv, hf = .obj fs → lookupField fs "results" = none →
      lookupField fs "scores" = some sv →
      convert_hf_to_dify_format hf docs =
        convert_hf_to_dify_format (.obj [("scores", sv)]) docs) := by
  refine ⟨fun h1 h2 => ?_, fun fs he hr hs => ?_, fun fs rv he hr => ?_, fun fs sv he hr hs => ?_⟩
  · cases hf <;>
      simp_all [JValue.isArr, JValue.isObj, convert_hf_to_dify_format, collect_results,
        sort_by_relevance_nil]
  · subst he
    simp [convert_hf_to_dify_format, collect_results, hr, hs, sort_by_relevance_nil]
  · subst he
    have h1 : collect_results (.obj fs) docs = collect_results (.obj [("results", rv)]) docs := by
      simp [collect_results, hr, lookupField]
    simp [convert_hf_to_dify_format, h1]
  · subst he
    have h1 : collect_results (.obj fs) docs = collect_results (.obj [("scores", sv)]) docs := by
      simp [collect_results, hr, hs, lookupField]
    simp [convert_hf_to_dify_format, h1]

/-- Witness for C3: with both keys present the scores key is ignored. -/
theorem c3_shape_dispatch_priority_witness :
    convert_hf_to_dify_format (.obj [("results", .arr []), ("scores", .arr [.float 5])]) []
      = convert_hf_to_dify_format (.obj [("results", .arr [])]) [] :=
  (c3_shape_dispatch_priority (.obj [("results", .arr []), ("scores", .arr [.float 5])])
    []).2.2.1 _ _ rfl rfl

/-- Counterexample to C4 as stated: a documents value that is present but
not a sequence is not replaced by the empty sequence; the translated
payload carries the non-sequence value unchanged. -/
theorem c4_counterexample :
    rerank_payload (.obj [("documents", .int 5)]) =
      .ok { query := .str "", texts := .int 5, truncate := true,
            truncation_direction := "Right", raw_scores := false }
    ∧ (JValue.int 5).isArr = false := ⟨rfl, rfl⟩

/-- Claim C4 (amended): on a mapping inbound value translation never
fails; query is the inbound query value, defaulting to the empty string
only when the key is absent, and texts is the inbound documents value,
defaulting to the empty sequence only when the key is absent — a present
non-sequence value is passed through unchanged.  On a non-mapping inbound
value the attribute access raises, so translation fails there. -/
theorem c4_translation_defaults (fs : List (String × JValue)) :
    (rerank_payload (.obj fs) =
      .ok { query := (lookupField fs "query").getD (.str ""),
            texts := (lookupField fs "documents").getD (.arr []),
            truncate := true, truncation_direction := "Right", raw_scores := false })
  ∧ (∀ v : JValue, v.isObj = false →
      rerank_payload v = .error "AttributeError: object has no attribute get") := by
  refine ⟨rfl, fun v hv => ?_⟩
  cases v <;> simp_all [rerank_payload, pyGet, JValue.isObj]

/-- Witness for C4 (amended): a concrete mapping with a non-sequence
documents value translates without failing, and a non-mapping inbound
value makes translation raise. -/
theorem c4_translation_defaults_witness :
    rerank_payload (.obj [("documents", .int 5)]) =
      .ok { query := (lookupField [("documents", .int 5)] "query").getD (.str ""),
            texts := (lookupField [("documents", .int 5)] "documents").getD (.arr []),
            truncate := true, truncation_direction := "Right", raw_scores := false }
    ∧ rerank_payload (.str "nope") = .error "AttributeError: object has no attribute get" :=
  ⟨(c4_translation_defaults [("documents", .int 5)]).1,
   (c4_translation_defaults []).2 (.str "nope") rfl⟩

/-- Claim C5: a score value that float() cannot coerce makes the item
parser raise, the whole conversion fail, and the request answer 500 with
an error body, rather than being silently defaulted.  Stated for an item
whose resolved index is the default 0, so the failure is the score
coercion itself. -/
theorem c5_nonnumeric_score_is_fatal (fields : List (String × JValue)) (msg : String)
    (docs : List String) (rest : List JValue)
    (incfs : List (String × JValue)) (raw : String)
    (hidx : resolveIndex fields = .int 0)
    (hflt : pyFloat (resolveScore fields) = .error msg)
    (hdocs : asStringList ((lookupField incfs "documents").getD (.arr [])) = some docs) :
    convert_hf_to_dify_format (.arr (.obj fields :: rest)) docs = .error msg
  ∧ do_POST (.obj incfs)
      (.response { status := 200, body := raw, parsed := .ok (.arr (.obj fields :: rest)) })
      = .ok (500, .jsonVal (error_body msg)) := by
  have hitem : parse_item (.obj fields) docs = .error msg := by
    by_cases h : (0 : ℤ) < (docs.length : ℤ) <;>
      simp [parse_item, hidx, hflt, pyLtNat, pyListGet, pyListGetInt, h]
  have hconv : convert_hf_to_dify_format (.arr (.obj fields :: rest)) docs = .error msg := by
    simp [convert_hf_to_dify_format, collect_results, collect_list_items, hitem]
  refine ⟨hconv, ?_⟩
  simp [do_POST, rerank_payload, pyGet, try_block, hdocs, hconv]

/-- Witness for C5: a null score fails conversion and yields a 500 with
the error body. -/
theorem c5_nonnumeric_score_is_fatal_witness :
    convert_hf_to_dify_format (.arr [.obj [("score", .null)]]) ["a"] =
      .error "TypeError: float argument must be a string or a real number"
  ∧ do_POST (.obj [("documents", .arr [.str "a"])])
      (.response { status := 200, body := "irrelevant",
                   parsed := .ok (.arr [.obj [("score", .null)]]) })
      = .ok (500, .jsonVal
          (error_body "TypeError: float argument must be a string or a real number")) :=
  c5_nonnumeric_score_is_fatal [("score", .null)] _ ["a"] []
    [("documents", .arr [.str "a"])] "irrelevant" rfl rfl rfl

/-- Claim C6: every successfully translated payload carries the fixed
policy fields truncate = true, truncation_direction = Right and
raw_scores = false, whatever the inbound value contained. -/
theorem c6_fixed_policy_fields (incoming : JValue) (r : RerankPayload)
    (h : rerank_payload incoming = .ok r) :
    r.truncate = true ∧ r.truncation_direction = "Right" ∧ r.raw_scores = false := by
  cases incoming <;> simp [rerank_payload, pyGet] at h <;> simp [← h]

/-- Witness for C6: the payload translated from the empty mapping. -/
theorem c6_fixed_policy_fields_witness :
    ({ query := .str "", texts := .arr [], truncate := true,
       truncation_direction := "Right", raw_scores := false } : RerankPayload).truncate = true
  ∧ ({ query := .str "", texts := .arr [], truncate := true,
       truncation_direction := "Right", raw_scores := false } : RerankPayload).truncation_direction = "Right"
  ∧ ({ query := .str "", texts := .arr [], truncate := true,
       truncation_direction := "Right", raw_scores := false } : RerankPayload).raw_scores = false :=
  c6_fixed_policy_fields (.obj []) _ rfl

theorem collect_scores_get_index (ss : List JValue) (i : Nat) (docs : List String)
    (pre : List OutboundResult) (h : collect_scores i ss docs = .ok pre) :
    ∀ j (hj : j < pre.length), (pre.get ⟨j, hj⟩).index = .int ((i + j : Nat) : ℤ) := by
  induction ss generalizing i pre with
  | nil =>
    simp only [collect_scores] at h
    cases h
    intro j hj
    simp at hj
  | cons s rest ih =>
    simp only [collect_scores] at h
    cases hsc : pyFloat s with
    | error e => rw [hsc] at h; simp at h
    | ok q =>
      rw [hsc] at h
      cases hrs : collect_scores (i + 1) rest docs with
      | error e => rw [hrs] at h; simp at h
      | ok rs =>
        rw [hrs] at h
        simp at h
        subst h
        intro j hj
        cases j with
        | zero => simp [List.get]
        | succ k =>
          have hk : k < rs.length := by simpa using hj
          have := ih (i + 1) rs hrs k hk
          simpa [List.get, Nat.add_assoc, Nat.add_comm 1 k] using this

/-- Claim C7: in the item-bearing shapes the resolved index prefers the
corpus_id field, falls back to the index field and defaults to the integer
0; the resolved score prefers the score field, falls back to the
relevance_score field and defaults to the float 0.0; and in the scores
shape the index of the j-th produced result is j itself. -/
theorem c7_field_resolution (fields : List (String × JValue)) :
    (∀ v, lookupField fields "corpus_id" = some v → resolveIndex fields = v)
  ∧ (∀ v, lookupField fields "corpus_id" = none → lookupField fields "index" = some v →
      resolveIndex fields = v)
  ∧ (lookupField fields "corpus_id" = none → lookupField fields "index" = none →
      resolveIndex fields = .int 0)
  ∧ (∀ v, lookupField fields "score" = some v → resolveScore fields = v)
  ∧ (∀ v, lookupField fields "score" = none → lookupField fields "relevance_score" = some v →
      resolveScore fields = v)
  ∧ (lookupField fields "score" = none → lookupField fields "relevance_score" = none →
      resolveScore fields = .float 0)
  ∧ (∀ (ss : List JValue) (docs : List String) (pre : List OutboundResult),
      collect_scores 0 ss docs = .ok pre →
      ∀ j (hj : j < pre.length), (pre.get ⟨j, hj⟩).index = .int (j : ℤ)) := by
  refine ⟨fun v hv => ?_, fun v h1 h2 => ?_, fun h1 h2 => ?_,
          fun v hv => ?_, fun v h1 h2 => ?_, fun h1 h2 => ?_, fun ss docs pre h j hj => ?_⟩
  · simp [resolveIndex, hv]
  · simp [resolveIndex, h1, h2]
  · simp [resolveIndex, h1, h2]
  · simp [resolveScore, hv]
  · simp [resolveScore, h1, h2]
  · simp [resolveScore, h1, h2]
  · simpa using collect_scores_get_index ss 0 docs pre h j hj

/-- Witness for C7: a present corpus_id wins over a present index field. -/
theorem c7_field_resolution_witness :
    resolveIndex [("corpus_id", .int 7), ("index", .int 1)] = .int 7 :=
  (c7_field_resolution [("corpus_id", .int 7), ("index", .int 1)]).1 _ rfl

/-- Claim C8: when the backend answers a status other than 200, the proxy
answers that same status with the raw backend body unchanged, whatever the
body parses to — normalization is never consulted. -/
theorem c8_non200_forwarded_verbatim (incfs : List (String × JValue)) (status : Nat)
    (body : String) (parsed : Except String JValue) (h : status ≠ 200) :
    do_POST (.obj incfs) (.response { status := status, body := body, parsed := parsed }) =
      .ok (status, .raw body) := by
  simp [do_POST, rerank_payload, pyGet, try_block, h]

/-- Witness for C8: a 503 with its body is forwarded verbatim even though
the body does not parse. -/
theorem c8_non200_forwarded_verbatim_witness :
    do_POST (.obj [])
      (.response { status := 503, body := "overloaded", parsed := .error "boom" }) =
      .ok (503, .raw "overloaded") :=
  c8_non200_forwarded_verbatim [] 503 "overloaded" (.error "boom") (by decide)

/-- Claim C10: a non-mapping backend item is skipped without effect in the
direct-list shape, but makes the conversion raise in the dict-with-results
shape, failing the whole request. -/
theorem c10_non_mapping_item_asymmetry (v : JValue) (rest : List JValue)
    (docs : List String) (hv : v.isObj = false) :
    convert_hf_to_dify_format (.arr (v :: rest)) docs =
      convert_hf_to_dify_format (.arr rest) docs
  ∧ convert_hf_to_dify_format (.obj [("results", .arr (v :: rest))]) docs =
      .error "AttributeError: object has no attribute get" := by
  constructor
  · have h : collect_list_items (v :: rest) docs = collect_list_items rest docs := by
      cases v <;> first
        | rfl
        | simp [JValue.isObj] at hv
    simp [convert_hf_to_dify_format, collect_results, h]
  · have hp : parse_item v docs = .error "AttributeError: object has no attribute get" := by
      cases v <;> first
        | rfl
        | simp [JValue.isObj] at hv
    simp [convert_hf_to_dify_format, collect_results, lookupField, pyIter,
      collect_result_items, hp]

/-- Witness for C10: the integer item 3 is skipped in the list shape and
fatal in the results shape. -/
theorem c10_non_mapping_item_asymmetry_witness :
    convert_hf_to_dify_format (.arr [.int 3]) [] = convert_hf_to_dify_format (.arr []) []
  ∧ convert_hf_to_dify_format (.obj [("results", .arr [.int 3])]) [] =
      .error "AttributeError: object has no attribute get" :=
  c10_non_mapping_item_asymmetry (.int 3) [] [] rfl
